import Mathlib

/-!
Verification development for the evidence-processing pipeline:
a shallow embedding of the tag lifecycle engine (helpers/sql_helpers.py),
the pipeline orchestrator's retry handling (celery_app.py), the embedding
and tag associator (helpers/embedding_helpers.py, helpers/diagnosis_worker.py),
the evidence record writer (helpers/diagnosis_processor.py,
helpers/visit_processor.py) and the document content extractor's ordering
and batching (helpers/text_ext_helpers.py, helpers/llm_helpers.py).
-/

/-! ## Tag lifecycle engine (helpers/sql_helpers.py, models/sql_models.py) -/

/-- A value as Python's `set` compares it in `discover_nexus_tags`:
`tags_with_tf_ids` is a set of plain ints (`row.tag_id`), while
`active_tag_ids = set(session.query(NexusTags.tag_id)...all())` is a set of
1-tuple result rows.  An int and a 1-tuple are never equal in Python, so both
shapes are embedded. -/
inductive PyVal where
| int (n : Nat) : PyVal
| tuple1 (n : Nat) : PyVal
deriving DecidableEq

/-- A row of the `conditions` table, restricted to the columns the lifecycle
queries read (models/sql_models.py, class Conditions). -/
structure Condition where
  condition_id : Nat
  user_id : Option Nat
  in_service : Bool
deriving DecidableEq

/-- A row of the `nexus_tags` table (models/sql_models.py, class NexusTags).
`user_id` is an `Option` because `discover_nexus_tags` constructs
`NexusTags(tag_id=t_id)` without a user, although the column is declared
`nullable=False`. -/
structure NexusRow where
  nexus_tags_id : Nat
  tag_id : Nat
  user_id : Option Nat
  discovered_at : Nat
  revoked_at : Option Nat
deriving DecidableEq

/-- The slice of the database state the two lifecycle passes read and write:
`conditions`, the `condition_tags` association table (rows are
(condition_id, tag_id) pairs) and `nexus_tags`. -/
structure NexusDB where
  conditions : List Condition
  condition_tags : List (Nat × Nat)
  nexus_tags : List NexusRow
deriving DecidableEq

/-- The `HAVING count(case (in_service = True, 1)) > 0` side of the grouped
join of `condition_tags` with `Conditions`: tag `t` has at least one linked
condition with `in_service = TRUE`. -/
def hasLinkedInService (db : NexusDB) (t : Nat) : Bool :=
  db.condition_tags.any fun p =>
    p.2 == t && db.conditions.any fun c => c.condition_id == p.1 && c.in_service

/-- Tag `t` has at least one linked condition with `in_service = FALSE`. -/
def hasLinkedOutService (db : NexusDB) (t : Nat) : Bool :=
  db.condition_tags.any fun p =>
    p.2 == t && db.conditions.any fun c => c.condition_id == p.1 && !c.in_service

/-- The subquery shared by both passes: tag ids grouped from `condition_tags`
having both an in-service and an out-of-service linked condition
(sql_helpers.py lines 13-28 and 49-65).  Note that it does not filter by user:
the two sides may come from different users. -/
def tags_with_tf_ids (db : NexusDB) : List Nat :=
  (db.condition_tags.map Prod.snd).dedup.filter fun t =>
    hasLinkedInService db t && hasLinkedOutService db t

/-- `set(session.query(NexusTags.tag_id).filter(NexusTags.revoked_at.is_(None)).all())`
(sql_helpers.py lines 33-37): a set of 1-tuple rows, not of ints. -/
def active_tag_ids (db : NexusDB) : List PyVal :=
  (db.nexus_tags.filter fun r => r.revoked_at.isNone).map fun r => PyVal.tuple1 r.tag_id

/-- `newly_qualified = tags_with_tf_ids - active_tag_ids` (line 40): Python
set difference, which tests each int for membership among the 1-tuples. -/
def newly_qualified (db : NexusDB) : List Nat :=
  (tags_with_tf_ids db).filter fun t => !(active_tag_ids db).contains (PyVal.int t)

/-- `discover_nexus_tags(session)` (sql_helpers.py lines 6-45): insert a
`NexusTags(tag_id=t_id)` row for each newly qualified tag.  `discovered_at`
defaults to now, `user_id` is not set, `nexus_tags_id` autoincrements from
`fresh`. -/
def discover_nexus_tags (now fresh : Nat) (db : NexusDB) : NexusDB :=
  { db with nexus_tags := db.nexus_tags ++
      (newly_qualified db).enum.map fun p =>
        { nexus_tags_id := fresh + p.1, tag_id := p.2, user_id := none
          discovered_at := now, revoked_at := none } }

/-- `revoke_nexus_tags_if_invalid(session)` (sql_helpers.py lines 48-78):
set `revoked_at` to now on every active row whose `tag_id` is not in the
still-valid subquery. -/
def revoke_nexus_tags_if_invalid (now : Nat) (db : NexusDB) : NexusDB :=
  { db with nexus_tags := db.nexus_tags.map fun r =>
      if r.revoked_at.isNone && !(tags_with_tf_ids db).contains r.tag_id
      then { r with revoked_at := some now } else r }

/-- One recompute as `finalize_task` runs it (celery_app.py lines 140-145):
the discover pass followed by the revoke pass. -/
def recompute (now fresh : Nat) (db : NexusDB) : NexusDB :=
  revoke_nexus_tags_if_invalid now (discover_nexus_tags now fresh db)

/-- The claim-side both-sides condition, per (Category, Subject) pair: user
`u` has at least one linked condition with `in_service = true` and one with
`in_service = false` for tag `t`. -/
def pairHasBothSides (db : NexusDB) (t u : Nat) : Bool :=
  (db.condition_tags.any fun p => p.2 == t && db.conditions.any fun c =>
      c.condition_id == p.1 && c.user_id == some u && c.in_service) &&
  (db.condition_tags.any fun p => p.2 == t && db.conditions.any fun c =>
      c.condition_id == p.1 && c.user_id == some u && !c.in_service)

/-- An active nexus entry attributed to the (Category, Subject) pair. -/
def activeEntryForPair (db : NexusDB) (t u : Nat) : Bool :=
  db.nexus_tags.any fun r => r.tag_id == t && r.user_id == some u && r.revoked_at.isNone

/-- All active rows carrying a given tag id. -/
def activeRowsForTag (db : NexusDB) (t : Nat) : List NexusRow :=
  db.nexus_tags.filter fun r => r.revoked_at.isNone && r.tag_id == t

/-- A database with a single subject 1 whose conditions 1 (in service) and 2
(out of service) are both linked to tag 10; no nexus rows yet. -/
def nexusDB0 : NexusDB :=
  { conditions := [⟨1, some 1, true⟩, ⟨2, some 1, false⟩]
    condition_tags := [(1, 10), (2, 10)]
    nexus_tags := [] }

/-- A database where subject 1 has only an in-service condition linked to tag
10, subject 2 has both sides linked to tag 10, and an active nexus row for
(tag 10, subject 1) discovered at time 5 exists. -/
def nexusDB8 : NexusDB :=
  { conditions := [⟨1, some 1, true⟩, ⟨3, some 2, true⟩, ⟨4, some 2, false⟩]
    condition_tags := [(1, 10), (3, 10), (4, 10)]
    nexus_tags := [⟨0, 10, some 1, 5, none⟩] }

/-- The lifecycle statuses written to the `files.status` column by the task
chain: `Uploaded`, `Extracting Data`, `Finding Evidence`, `Complete`,
`Failed`. -/
inductive FileStatus where
| uploaded
| extractingData
| findingEvidence
| complete
| failed
deriving DecidableEq

/-! ## Pipeline orchestrator retry handling (celery_app.py)

The three tasks are declared with `bind=True, max_retries=3,
default_retry_delay=10`.  Each task is modelled by the sequence of writes it
makes to the source document's `status` column across its attempts, as a
function of which attempts raise.  `f i = true` means the body of attempt `i`
(0-based) raises an exception. -/

/-- `max_retries=3` on each of the three task decorators. -/
def task_max_retries : Nat := 3

/-- `default_retry_delay=10` on each of the three task decorators. -/
def task_default_retry_delay : Nat := 10

/-- `extraction_task` (celery_app.py lines 32-69): each attempt first writes
status `Extracting Data`; on an exception the handler runs
`raise self.retry(exc=exc)`, which schedules another attempt while fewer than
`max_retries` retries have happened, and never touches the status. -/
def extraction_writes_from (f : Nat → Bool) : Nat → Nat → List FileStatus
  | _, 0 => []
  | i, fuel + 1 =>
    FileStatus.extractingData ::
      (if f i then (if i < task_max_retries then extraction_writes_from f (i + 1) fuel else [])
       else [])

/-- The status writes of a full `extraction_task` run (first attempt plus up
to `max_retries` retries). -/
def extraction_status_writes (f : Nat → Bool) : List FileStatus :=
  extraction_writes_from f 0 (task_max_retries + 1)

/-- `process_pages_task` (celery_app.py lines 71-131): the attempt writes
status `Finding Evidence`; the `except` clause (lines 128-130) only logs the
exception and falls through, so the task neither retries nor re-raises and
there is exactly one attempt. -/
def process_pages_status_writes (_f : Nat → Bool) : List FileStatus :=
  [FileStatus.findingEvidence]

/-- Number of attempts `process_pages_task` makes: one, since its exception
handler swallows the exception. -/
def process_pages_attempts (_f : Nat → Bool) : Nat := 1

/-- `finalize_task` (celery_app.py lines 134-167): a successful attempt writes
status `Complete`; a failing attempt writes status `Failed` in the `except`
block and then runs `raise self.retry(exc=exc)`, scheduling another attempt
while fewer than `max_retries` retries have happened. -/
def finalize_writes_from (f : Nat → Bool) : Nat → Nat → List FileStatus
  | _, 0 => []
  | i, fuel + 1 =>
    if f i then
      FileStatus.failed ::
        (if i < task_max_retries then finalize_writes_from f (i + 1) fuel else [])
    else [FileStatus.complete]

/-- The status writes of a full `finalize_task` run. -/
def finalize_status_writes (f : Nat → Bool) : List FileStatus :=
  finalize_writes_from f 0 (task_max_retries + 1)

/-! ## Embedding and tag associator (helpers/embedding_helpers.py,
helpers/diagnosis_worker.py)

External collaborators are parameters: the embedding service call
(`generate_embedding`, which either raises, returns no vector, or returns a
vector) and the store's cosine-distance operator (a rational distance for
each tag row given the query vector).  Distances are embedded as rationals;
`MAX_COSINE_DISTANCE = .559` becomes `559/1000`. -/

/-- A row of the `tags` catalog, reduced to its key; its reference embedding
is only ever consulted through the distance oracle. -/
structure TagRow where
  tag_id : Nat
deriving DecidableEq

/-- The mutable state of one condition that `process_condition_embedding`
touches: the `is_ratable` flag (the record's actionable flag, default true),
the tag associations appended through `new_condition.tags`, and the
`condition_embeddings` rows added to the session. -/
structure ConditionState where
  is_ratable : Bool
  tags : List Nat
  stored : List (List ℚ)
deriving DecidableEq

/-- `MAX_COSINE_DISTANCE = .559` (embedding_helpers.py line 12), embedded as
the rational 559/1000. -/
def MAX_COSINE_DISTANCE : ℚ := mkRat 559 1000

/-- `find_top_tags(session, embedding_vector, top_n)` (embedding_helpers.py
lines 15-30): all catalog rows paired with their cosine distance to the query
vector, ordered by ascending distance, limited to `top_n`. -/
def find_top_tags (catalog : List TagRow) (dist : TagRow → ℚ) (top_n : Nat) :
    List (TagRow × ℚ) :=
  ((catalog.map fun t => (t, dist t)).insertionSort fun a b => a.2 ≤ b.2).take top_n

/-- The tail of `process_condition_embedding` after the similarity search
(embedding_helpers.py lines 63-94): if no tag came back, mark non-ratable; if
the nearest distance is at most the threshold, append the tag association;
otherwise mark non-ratable. -/
def associate_nearest (found : List (TagRow × ℚ)) (st : ConditionState) :
    ConditionState :=
  match found with
  | [] => { st with is_ratable := false }
  | (top, d) :: _ =>
    if d ≤ MAX_COSINE_DISTANCE then { st with tags := st.tags ++ [top.tag_id] }
    else { st with is_ratable := false }

/-- `process_condition_embedding` (embedding_helpers.py lines 33-109).
`embedResult` is the outcome of the `generate_embedding` call: `.error` means
it raised (the surrounding try lands in the bare `except` of lines 103-109,
which only logs and changes nothing), `.ok none` means it returned no vector
(lines 95-102, mark non-ratable), `.ok (some v)` stores the vector and runs
the similarity search. -/
def process_condition_embedding (embedResult : Except Unit (Option (List ℚ)))
    (catalog : List TagRow) (dist : List ℚ → TagRow → ℚ)
    (st : ConditionState) : ConditionState :=
  match embedResult with
  | .error _ => st
  | .ok none => { st with is_ratable := false }
  | .ok (some v) =>
    associate_nearest (find_top_tags catalog (dist v) 1)
      { st with stored := st.stored ++ [v] }

/-- A fresh condition state: actionable (`is_ratable`) defaults to true, no
tags, no stored embedding. -/
def freshConditionState : ConditionState :=
  { is_ratable := true, tags := [], stored := [] }

/-! ## Evidence record writer (helpers/diagnosis_processor.py,
helpers/visit_processor.py)

Dates are embedded as integers (ordinal days); comparisons of Python `date`
objects are the integer comparisons.  `datetime.strptime(s, '%Y-%m-%d')` is
an external library call, embedded as a parse oracle returning `none` exactly
when it raises `ValueError`. -/

/-- One extracted diagnosis dict.  `diagnosis_name` is `none` when
`diagnosis.get('diagnosis_name')` is missing or not a string (the
`isinstance(condition_name, str)` check fails), `some s` for any string
`s` including the empty string. -/
structure DiagnosisInput where
  diagnosis_name : Option String
  medication_list : List String
  treatments : Option String
  findings : Option String
  doctor_comments : Option String
deriving DecidableEq

/-- A row inserted into the `conditions` table by `process_diagnosis`. -/
structure ConditionRow where
  user_id : Nat
  file_id : Nat
  page_number : Nat
  condition_name : String
  date_of_visit : Int
  medical_professionals : Option String
  medications_list : List String
  treatments : Option String
  findings : Option String
  comments : Option String
  in_service : Bool
deriving DecidableEq

/-- `process_diagnosis` (diagnosis_processor.py lines 6-53): if the name is
not a string, log and return `None`; otherwise insert one row (the
`try/except` around the insert returns `None` after a rollback when the
database write raises, modelled by `dbInsertRaises`). -/
def process_diagnosis (diagnosis : DiagnosisInput) (dbInsertRaises : Bool)
    (user_id file_id page_number : Nat) (date_of_visit : Int)
    (medical_professionals_str : Option String) (in_service : Bool) :
    Option ConditionRow :=
  match diagnosis.diagnosis_name with
  | none => none
  | some name =>
    if dbInsertRaises then none
    else some
      { user_id := user_id, file_id := file_id, page_number := page_number
        condition_name := name, date_of_visit := date_of_visit
        medical_professionals := medical_professionals_str
        medications_list := diagnosis.medication_list
        treatments := diagnosis.treatments, findings := diagnosis.findings
        comments := diagnosis.doctor_comments, in_service := in_service }

/-- A row of the `service_periods` table, reduced to its date bounds. -/
structure ServicePeriodRec where
  service_start_date : Int
  service_end_date : Int
deriving DecidableEq

/-- One extracted visit dict: `date_of_visit` is `none` when the key is
missing (`visit.get` returned `None`), the diagnoses list, and the attending
professionals list. -/
structure VisitInput where
  date_of_visit : Option String
  diagnosis : List DiagnosisInput
  medical_professionals : List String
deriving DecidableEq

/-- An uncaught Python exception escaping `process_visit`. -/
inductive PyError where
| typeError
deriving DecidableEq

/-- `in_service = any(period start <= visit date <= period end)`
(visit_processor.py lines 41-44): inclusive containment on both bounds. -/
def in_service_of (periods : List ServicePeriodRec) (d : Int) : Bool :=
  periods.any fun p => p.service_start_date ≤ d && d ≤ p.service_end_date

/-- `', '.join(medical_professionals) if medical_professionals else None`
(visit_processor.py line 36). -/
def profStr (l : List String) : Option String :=
  if l.isEmpty then none else some (String.intercalate ", " l)

/-- The rows written by the per-diagnosis fan-out of `process_visit`
(visit_processor.py lines 50-82): each diagnosis is handed to
`worker_process_diagnosis`, whose `process_diagnosis` call either inserts one
row or skips; a skipped or failing diagnosis does not affect its siblings.
Rows are listed in submission order. -/
def writeDiagnoses (dbInsertRaises : DiagnosisInput → Bool)
    (diags : List DiagnosisInput) (user_id file_id page_number : Nat)
    (date_of_visit : Int) (medical_professionals_str : Option String)
    (in_service : Bool) : List ConditionRow :=
  diags.filterMap fun diag =>
    process_diagnosis diag (dbInsertRaises diag) user_id file_id page_number
      date_of_visit medical_professionals_str in_service

/-- `process_visit` (visit_processor.py lines 7-87).  `strptime` on a missing
date (`None`) raises `TypeError`, which the `except ValueError` clause does
not catch; on a string that does not parse it raises `ValueError`, which is
caught and turned into an early `return` (lines 22-27) before any diagnosis
is processed.  Otherwise the in-service flag is computed once and passed to
every diagnosis worker, and the visit summary dict is returned together with
the rows written. -/
def process_visit (parseDate : String → Option Int)
    (dbInsertRaises : DiagnosisInput → Bool) (visit : VisitInput)
    (page_number : Nat) (periods : List ServicePeriodRec)
    (user_id file_id : Nat) :
    Except PyError (Option ((String × Int) × List ConditionRow)) :=
  match visit.date_of_visit with
  | none => .error .typeError
  | some s =>
    match parseDate s with
    | none => .ok none
    | some d =>
      .ok (some ((s, d),
        writeDiagnoses dbInsertRaises visit.diagnosis user_id file_id
          page_number d (profStr visit.medical_professionals)
          (in_service_of periods d)))

/-- The evidence rows produced by a batch of sibling visits as
`process_pages_task` submits them (celery_app.py lines 92-123): each visit is
an independent unit; a visit that returns `None` or raises contributes no
rows and does not disturb the others. -/
def run_visits (parseDate : String → Option Int)
    (dbInsertRaises : DiagnosisInput → Bool) (visits : List VisitInput)
    (page_number : Nat) (periods : List ServicePeriodRec)
    (user_id file_id : Nat) : List ConditionRow :=
  visits.foldr
    (fun v acc =>
      (match process_visit parseDate dbInsertRaises v page_number periods
          user_id file_id with
       | .ok (some (_, rows)) => rows
       | _ => []) ++ acc)
    []

/-! ## Document content extractor ordering and batching
(helpers/text_ext_helpers.py, helpers/llm_helpers.py)

`detect_document_types` slices the page texts into batches of 25, submits the
batches to a concurrent executor, gathers results in completion order and
sorts them by page number; `process_pages` and `read_and_extract_document`
likewise gather per-page results in completion order and sort them by page
number before returning.  Completion order is modelled as an arbitrary
permutation of the submitted work's results. -/

/-- `batch_size = 25` (llm_helpers.py line 701). -/
def batch_size : Nat := 25

/-- Structural helper for `batchesOf`: the fuel bounds the number of slices
and any fuel at least the list's length produces them all. -/
def batchesOfAux : Nat → List String → List (List String)
  | _, [] => []
  | 0, _ :: _ => []
  | fuel + 1, x :: xs =>
    (x :: xs).take batch_size :: batchesOfAux fuel ((x :: xs).drop batch_size)

/-- `[texts[i:i + batch_size] for i in range(0, len(texts), batch_size)]`
(llm_helpers.py line 702). -/
def batchesOf (l : List String) : List (List String) :=
  batchesOfAux l.length l

/-- One page classification parsed from the structured LLM output. -/
structure PageClassificationRec where
  page_number : Nat
  category : String
deriving DecidableEq

/-- The per-batch classification results as submitted (llm_helpers.py lines
705-709): batch `idx` is handed to `process_batch` with starting index
`idx * batch_size`; `classifyBatch` is the external LLM call. -/
def batch_results (classifyBatch : Nat → List String → List PageClassificationRec)
    (texts : List String) : List (List PageClassificationRec) :=
  (batchesOf texts).enum.map fun p => classifyBatch (p.1 * batch_size) p.2

/-- `results.sort(key=lambda x: x.page_number)` (llm_helpers.py line 716). -/
def sort_by_page_number (l : List PageClassificationRec) :
    List PageClassificationRec :=
  l.insertionSort fun a b => a.page_number ≤ b.page_number

/-- One per-page result dict of the extractor (text_ext_helpers.py lines
249-261): page number, category, and an error marker for a page whose
processing failed. -/
structure PageResult where
  page : Nat
  category : Option String
  error : Option String
deriving DecidableEq

/-- `results.sort(key=lambda x: x['page'])` (text_ext_helpers.py line 219)
and `document_outputs.sort(key=lambda x: x['page'])` (line 84). -/
def sort_page_results (l : List PageResult) : List PageResult :=
  l.insertionSort fun a b => a.page ≤ b.page

instance : IsTotal PageClassificationRec (fun a b => a.page_number ≤ b.page_number) :=
  ⟨fun a b => Nat.le_total a.page_number b.page_number⟩

instance : IsTrans PageClassificationRec (fun a b => a.page_number ≤ b.page_number) :=
  ⟨fun _ _ _ => Nat.le_trans⟩

instance : IsTotal PageResult (fun a b => a.page ≤ b.page) :=
  ⟨fun a b => Nat.le_total a.page b.page⟩

instance : IsTrans PageResult (fun a b => a.page ≤ b.page) :=
  ⟨fun _ _ _ => Nat.le_trans⟩

/-! ## Spec-side row predicate and concrete inputs used by the theorems -/

/-- What the revoke pass does to one row, stated row-by-row: identity columns
and `discovered_at` are untouched, and `revoked_at` is stamped with the
current time exactly when the row was active and its tag no longer has
evidence on both sides (the condition evaluated across all subjects). -/
def revoke_row_spec (db : NexusDB) (now : Nat) (r rNew : NexusRow) : Prop :=
  rNew.nexus_tags_id = r.nexus_tags_id ∧ rNew.tag_id = r.tag_id ∧
  rNew.user_id = r.user_id ∧ rNew.discovered_at = r.discovered_at ∧
  rNew.revoked_at =
    (if r.revoked_at = none ∧
        (hasLinkedInService db r.tag_id && hasLinkedOutService db r.tag_id) = false
     then some now else r.revoked_at)

/-- A one-tag catalog. -/
def catalogOne : List TagRow := [⟨10⟩]

/-- A distance oracle placing every tag at cosine distance exactly 0.559. -/
def dist559 : List ℚ → TagRow → ℚ := fun _ _ => mkRat 559 1000

/-- A distance oracle placing every tag at cosine distance 0.560. -/
def dist560 : List ℚ → TagRow → ℚ := fun _ _ => mkRat 560 1000

/-- A parse oracle for `strptime(s, '%Y-%m-%d')` that accepts exactly the
date string 2010-01-01, mapping it to ordinal day 0. -/
def parse0 : String → Option Int := fun s =>
  if s = "2010-01-01" then some 0 else none

/-- One service period covering ordinal days 0 through 10 inclusive. -/
def periods0 : List ServicePeriodRec := [⟨0, 10⟩]

/-- A well-formed diagnosis. -/
def diagKnee : DiagnosisInput := ⟨some "Knee Pain", [], none, none, none⟩

/-- A diagnosis whose name is missing or not a string. -/
def diagNoName : DiagnosisInput := ⟨none, [], none, none, none⟩

/-- A diagnosis whose name is the empty string. -/
def diagEmptyName : DiagnosisInput := ⟨some "", [], none, none, none⟩

/-- A database-write oracle under which no insert raises. -/
def noDbFail : DiagnosisInput → Bool := fun _ => false

/-- A visit dated exactly on the start bound of `periods0`. -/
def visitGood : VisitInput := ⟨some "2010-01-01", [diagKnee], []⟩

/-- A visit whose date string does not parse as `%Y-%m-%d`. -/
def visitBadDate : VisitInput := ⟨some "2010/01/01", [diagKnee], []⟩

/-- Three page texts. -/
def texts3 : List String := ["page one text", "page two text", "page three text"]

/-- A classifier oracle numbering pages from the batch's starting index, as
`process_batch` instructs the model to. -/
def classify3 : Nat → List String → List PageClassificationRec :=
  fun start b => b.enum.map fun p => ⟨start + p.1 + 1, "Clinical Records"⟩

/-- The batch results of `texts3` gathered in reversed completion order. -/
def gathered3 : List PageClassificationRec :=
  ((batch_results classify3 texts3).flatten).reverse

/-- Three per-page extractor results in page order (page 2 carries an error
marker, as a failed page is returned rather than dropped). -/
def trueResults3 : List PageResult :=
  [⟨1, some "Clinical Records", none⟩, ⟨2, none, some "boom"⟩,
   ⟨3, some "Clinical Records", none⟩]

/-- The same three results in a different completion order. -/
def completed3 : List PageResult :=
  [⟨3, some "Clinical Records", none⟩, ⟨1, some "Clinical Records", none⟩,
   ⟨2, none, some "boom"⟩]

/-! ## Theorems -/

/-- Membership in the both-sides subquery is exactly the both-sides
condition: any tag with an in-service linked condition occurs in the
association table, so the grouping loses no qualifying tag. -/
theorem mem_tags_with_tf (db : NexusDB) (t : Nat) :
    t ∈ tags_with_tf_ids db ↔
      (hasLinkedInService db t && hasLinkedOutService db t) = true := by
  constructor
  · intro h
    exact (List.mem_filter.mp h).2
  · intro h
    refine List.mem_filter.mpr ⟨?_, h⟩
    have h1 : hasLinkedInService db t = true := ((Bool.and_eq_true _ _).mp h).1
    rw [hasLinkedInService, List.any_eq_true] at h1
    obtain ⟨p, hp, hpt⟩ := h1
    have h2 : p.2 = t := by
      have := ((Bool.and_eq_true _ _).mp hpt).1
      simpa using this
    exact List.mem_dedup.mpr (List.mem_map.mpr ⟨p, hp, h2⟩)

/-- Claim C1: after a recompute, the per-(Category, Subject) both-sides
invariant fails on the code.  With subject 1 holding both an in-service and
an out-of-service condition linked to tag 10, the discover pass inserts a
nexus row carrying no subject at all, so no active entry for the pair
(tag 10, subject 1) exists; and a second recompute inserts a second active
row for tag 10, violating at-most-one-active. -/
theorem nexus_invariant_violated_eval :
    pairHasBothSides (recompute 100 1 nexusDB0) 10 1 = true ∧
    activeEntryForPair (recompute 100 1 nexusDB0) 10 1 = false ∧
    (activeRowsForTag (recompute 200 50 (recompute 100 1 nexusDB0)) 10).length = 2 := by
  decide

/-- Claim C2: recompute is not idempotent.  On `nexusDB0` the first run
inserts one nexus row; the second run, with no intervening change to
conditions or tag associations, inserts another, because the discover pass
compares a set of ints against a set of 1-tuple rows and never recognizes an
existing active entry. -/
theorem recompute_second_run_inserts :
    (recompute 100 1 nexusDB0).nexus_tags.length = 1 ∧
    (recompute 200 50 (recompute 100 1 nexusDB0)).nexus_tags.length = 2 := by
  decide

/-- Every status value `extraction_task` ever writes is `Extracting Data`:
its retry handler re-raises without touching the status. -/
theorem extraction_writes_from_all (f : Nat → Bool) :
    ∀ fuel i x, x ∈ extraction_writes_from f i fuel →
      x = FileStatus.extractingData := by
  intro fuel
  induction fuel with
  | zero => intro i x hx; simp [extraction_writes_from] at hx
  | succ n ih =>
    intro i x hx
    simp only [extraction_writes_from, List.mem_cons] at hx
    rcases hx with h | h
    · exact h
    · split at h
      · split at h
        · exact ih _ _ h
        · simp at h
      · simp at h

/-- Counterexample to claim C3: `finalize_task` writes status `Failed` on its
very first failing attempt — here the first attempt fails, the status is set
to `Failed`, the retry then succeeds and the status is set to `Complete` —
even though the retry budget of 3 was not exhausted. -/
theorem finalize_failed_on_first_attempt :
    finalize_status_writes (fun i => i == 0) =
      [FileStatus.failed, FileStatus.complete] ∧
    task_max_retries = 3 := by
  decide

/-- Claim C3 (amended): the three stages are configured with
`max_retries = 3` and a fixed retry delay of 10; on an exception the
extraction task retries without ever writing `Failed` (4 attempts when every
attempt fails), the page-processing task swallows the exception, making
exactly one attempt and never writing `Failed`, and the finalize task writes
`Failed` on every failing attempt — in particular already on the first one
whenever its first attempt fails — before retrying. -/
theorem retry_failed_status_behavior :
    task_max_retries = 3 ∧ task_default_retry_delay = 10 ∧
    (∀ f, FileStatus.failed ∉ extraction_status_writes f) ∧
    (extraction_status_writes fun _ => true).length = task_max_retries + 1 ∧
    (∀ f, process_pages_attempts f = 1 ∧
      FileStatus.failed ∉ process_pages_status_writes f) ∧
    (∀ f, FileStatus.failed ∈ finalize_status_writes f ↔ f 0 = true) := by
  refine ⟨rfl, rfl, ?_, by decide, ?_, ?_⟩
  · intro f h
    have := extraction_writes_from_all f _ _ _ h
    simp at this
  · intro f
    exact ⟨rfl, by simp [process_pages_status_writes]⟩
  · intro f
    cases h : f 0 with
    | false =>
      simp [finalize_status_writes, finalize_writes_from, task_max_retries, h]
    | true =>
      simp [finalize_status_writes, finalize_writes_from, task_max_retries, h]

/-- The boolean membership test the revoke pass's `NOT IN` runs equals the
both-sides condition evaluated across all subjects. -/
theorem contains_tags_with_tf (db : NexusDB) (t : Nat) :
    (tags_with_tf_ids db).contains t =
      (hasLinkedInService db t && hasLinkedOutService db t) := by
  have h1 : (tags_with_tf_ids db).contains t = decide (t ∈ tags_with_tf_ids db) := by
    simp
  rw [h1]
  by_cases h : t ∈ tags_with_tf_ids db
  · simp [h, (mem_tags_with_tf db t).mp h]
  · have h2 : (hasLinkedInService db t && hasLinkedOutService db t) = false :=
      Bool.eq_false_iff.mpr fun hb => h ((mem_tags_with_tf db t).mpr hb)
    rw [h2]
    simp [h]

/-- Claim C8 (amended): the revoke pass changes nothing but revoked
timestamps.  It leaves `conditions` and `condition_tags` untouched, deletes
or reorders no nexus row, preserves every row's identifiers and discovered
timestamp, and stamps `revoked_at` with the current time exactly on the rows
that were active and whose Category no longer has linked evidence on both
sides of the service boundary, the condition being evaluated across all
subjects (not per (Category, Subject) pair). -/
theorem revoke_frame_global_condition (db : NexusDB) (now : Nat) :
    (revoke_nexus_tags_if_invalid now db).conditions = db.conditions ∧
    (revoke_nexus_tags_if_invalid now db).condition_tags = db.condition_tags ∧
    List.Forall₂ (revoke_row_spec db now) db.nexus_tags
      (revoke_nexus_tags_if_invalid now db).nexus_tags := by
  refine ⟨rfl, rfl, ?_⟩
  show List.Forall₂ _ _ (db.nexus_tags.map _)
  rw [List.forall₂_map_right_iff, List.forall₂_same]
  intro r _
  unfold revoke_row_spec
  by_cases hcond :
      (r.revoked_at.isNone && !(tags_with_tf_ids db).contains r.tag_id) = true
  · rw [if_pos hcond]
    refine ⟨rfl, rfl, rfl, rfl, ?_⟩
    obtain ⟨ha, hb⟩ := (Bool.and_eq_true _ _).mp hcond
    have ha2 : r.revoked_at = none := Option.isNone_iff_eq_none.mp ha
    have hb2 : (hasLinkedInService db r.tag_id && hasLinkedOutService db r.tag_id) = false := by
      rw [← contains_tags_with_tf]
      simpa using hb
    rw [if_pos ⟨ha2, hb2⟩]
  · rw [if_neg hcond]
    refine ⟨rfl, rfl, rfl, rfl, ?_⟩
    have hneg : ¬ (r.revoked_at = none ∧
        (hasLinkedInService db r.tag_id && hasLinkedOutService db r.tag_id) = false) := by
      rintro ⟨ha, hb⟩
      apply hcond
      rw [Bool.and_eq_true]
      refine ⟨by simp [ha], ?_⟩
      rw [contains_tags_with_tf] at *
      simp [hb]
    rw [if_neg hneg]

/-- Counterexample to claim C8: in `nexusDB8` the pair (tag 10, subject 1)
no longer satisfies the both-sides condition, yet after a recompute the
active nexus row for that pair is untouched — its revoked timestamp is still
null — because subject 2's records keep tag 10 globally qualified. -/
theorem revoke_misses_pair_condition :
    pairHasBothSides nexusDB8 10 1 = false ∧
    ((recompute 7 1 nexusDB8).nexus_tags.filter fun r => r.nexus_tags_id == 0) =
      [⟨0, 10, some 1, 5, none⟩] := by
  decide

/-- `revoke_frame_global_condition` at the concrete state `nexusDB8` and
time 7. -/
theorem revoke_frame_global_condition_witness :
    (revoke_nexus_tags_if_invalid 7 nexusDB8).conditions = nexusDB8.conditions ∧
    (revoke_nexus_tags_if_invalid 7 nexusDB8).condition_tags = nexusDB8.condition_tags ∧
    List.Forall₂ (revoke_row_spec nexusDB8 7) nexusDB8.nexus_tags
      (revoke_nexus_tags_if_invalid 7 nexusDB8).nexus_tags :=
  revoke_frame_global_condition nexusDB8 7

/-- Counterexample to claim C4: when the embedding call raises (for instance
an API failure re-raised by `generate_embedding`), the bare `except` of
`process_condition_embedding` only logs, so the operation returns with the
record's actionable flag still true, not false. -/
theorem exception_leaves_actionable_true :
    (process_condition_embedding (Except.error ()) catalogOne dist559
      freshConditionState).is_ratable = true := by
  decide

/-- Claim C4 (amended): the associator never raises past its boundary (it is
a total state transformer) and every detected failure — the service returning
no vector, an empty similarity result, or a nearest distance above the
threshold — leaves the record with actionable = false; an internal exception,
however, is caught, logged, and leaves the record's state entirely unchanged,
so the actionable flag keeps its prior value (true by default). -/
theorem associator_failure_flag_behavior (catalog : List TagRow)
    (dist : List ℚ → TagRow → ℚ) (st : ConditionState) :
    process_condition_embedding (Except.error ()) catalog dist st = st ∧
    (process_condition_embedding (Except.ok none) catalog dist st).is_ratable = false ∧
    (∀ v, find_top_tags catalog (dist v) 1 = [] →
      (process_condition_embedding (Except.ok (some v)) catalog dist st).is_ratable = false) ∧
    (∀ v top d rest, find_top_tags catalog (dist v) 1 = (top, d) :: rest →
      MAX_COSINE_DISTANCE < d →
      (process_condition_embedding (Except.ok (some v)) catalog dist st).is_ratable = false) := by
  refine ⟨rfl, rfl, ?_, ?_⟩
  · intro v hv
    simp [process_condition_embedding, hv, associate_nearest]
  · intro v top d rest hv hd
    simp [process_condition_embedding, hv, associate_nearest, not_le.mpr hd]

/-- `associator_failure_flag_behavior` applied at concrete inputs: a raising
embedding call, a missing vector, an empty catalog, and a nearest distance of
0.560. -/
theorem associator_failure_flag_behavior_witness :
    process_condition_embedding (Except.error ()) catalogOne dist559
      freshConditionState = freshConditionState ∧
    (process_condition_embedding (Except.ok none) catalogOne dist559
      freshConditionState).is_ratable = false ∧
    (process_condition_embedding (Except.ok (some [])) [] dist559
      freshConditionState).is_ratable = false ∧
    (process_condition_embedding (Except.ok (some [])) catalogOne dist560
      freshConditionState).is_ratable = false := by
  have h1 := associator_failure_flag_behavior catalogOne dist559 freshConditionState
  have h2 := associator_failure_flag_behavior [] dist559 freshConditionState
  have h3 := associator_failure_flag_behavior catalogOne dist560 freshConditionState
  exact ⟨h1.1, h1.2.1, h2.2.2.1 [] rfl,
    h3.2.2.2 [] ⟨10⟩ (mkRat 560 1000) [] rfl (by decide)⟩

/-- Claim C5: the acceptance threshold is inclusive.  If the nearest catalog
entry comes back at distance exactly 0.559, the record is linked to it and
the actionable flag stays true; if the nearest distance is 0.560 — or
anything strictly above 0.559 — no tag is linked and the actionable flag is
set to false. -/
theorem threshold_boundary_inclusive (catalog : List TagRow)
    (dist : List ℚ → TagRow → ℚ) (st : ConditionState) (v : List ℚ)
    (top : TagRow) (rest : List (TagRow × ℚ)) (hst : st.is_ratable = true) :
    (find_top_tags catalog (dist v) 1 = (top, mkRat 559 1000) :: rest →
      (process_condition_embedding (Except.ok (some v)) catalog dist st).tags =
        st.tags ++ [top.tag_id] ∧
      (process_condition_embedding (Except.ok (some v)) catalog dist st).is_ratable =
        true) ∧
    (∀ d : ℚ, find_top_tags catalog (dist v) 1 = (top, d) :: rest →
      mkRat 559 1000 < d →
      (process_condition_embedding (Except.ok (some v)) catalog dist st).tags =
        st.tags ∧
      (process_condition_embedding (Except.ok (some v)) catalog dist st).is_ratable =
        false) := by
  constructor
  · intro hfind
    simp [process_condition_embedding, hfind, associate_nearest,
      MAX_COSINE_DISTANCE, hst]
  · intro d hfind hd
    have hd2 : ¬ d ≤ MAX_COSINE_DISTANCE := not_le.mpr hd
    simp [process_condition_embedding, hfind, associate_nearest, hd2, hst]

/-- `threshold_boundary_inclusive` applied to a one-tag catalog at distance
exactly 0.559 (linked, actionable stays true) and at distance 0.560 (not
linked, actionable false). -/
theorem threshold_boundary_inclusive_witness :
    ((process_condition_embedding (Except.ok (some [])) catalogOne dist559
        freshConditionState).tags = freshConditionState.tags ++ [10] ∧
      (process_condition_embedding (Except.ok (some [])) catalogOne dist559
        freshConditionState).is_ratable = true) ∧
    ((process_condition_embedding (Except.ok (some [])) catalogOne dist560
        freshConditionState).tags = freshConditionState.tags ∧
      (process_condition_embedding (Except.ok (some [])) catalogOne dist560
        freshConditionState).is_ratable = false) := by
  refine ⟨(threshold_boundary_inclusive catalogOne dist559 freshConditionState
      [] ⟨10⟩ [] rfl).1 rfl, ?_⟩
  exact (threshold_boundary_inclusive catalogOne dist560 freshConditionState
      [] ⟨10⟩ [] rfl).2 (mkRat 560 1000) rfl (by decide)

/-- Every row `process_diagnosis` inserts carries exactly the in-service flag
it was handed. -/
theorem process_diagnosis_some_in_service (diag : DiagnosisInput) (b : Bool)
    (uid fid page : Nat) (d : Int) (prof : Option String) (ins : Bool)
    (row : ConditionRow)
    (h : process_diagnosis diag b uid fid page d prof ins = some row) :
    row.in_service = ins := by
  unfold process_diagnosis at h
  split at h
  · exact absurd h (by simp)
  · split at h
    · exact absurd h (by simp)
    · injection h with h2
      rw [← h2]

/-- Claim C6: the computed in-service flag is true exactly when some service
period contains the visit date with inclusive bounds on both ends; the flag
is computed once per visit and every evidence row written for the visit's
diagnoses carries that same flag; in particular a visit dated exactly on the
start or the end of a (well-formed) service period is in service. -/
theorem in_service_inclusive_containment (parse : String → Option Int)
    (dbR : DiagnosisInput → Bool) (visit : VisitInput) (page : Nat)
    (periods : List ServicePeriodRec) (uid fid : Nat) (s : String) (d : Int)
    (h1 : visit.date_of_visit = some s) (h2 : parse s = some d) :
    process_visit parse dbR visit page periods uid fid =
      Except.ok (some ((s, d),
        writeDiagnoses dbR visit.diagnosis uid fid page d
          (profStr visit.medical_professionals) (in_service_of periods d))) ∧
    (in_service_of periods d = true ↔
      ∃ p ∈ periods, p.service_start_date ≤ d ∧ d ≤ p.service_end_date) ∧
    (∀ row ∈ writeDiagnoses dbR visit.diagnosis uid fid page d
        (profStr visit.medical_professionals) (in_service_of periods d),
      row.in_service = in_service_of periods d) ∧
    (∀ p ∈ periods, p.service_start_date ≤ p.service_end_date →
      d = p.service_start_date ∨ d = p.service_end_date →
      in_service_of periods d = true) := by
  refine ⟨?_, ?_, ?_, ?_⟩
  · simp [process_visit, h1, h2]
  · simp [in_service_of, List.any_eq_true]
  · intro row hrow
    unfold writeDiagnoses at hrow
    obtain ⟨diag, _, hdiag⟩ := List.mem_filterMap.mp hrow
    exact process_diagnosis_some_in_service _ _ _ _ _ _ _ _ _ hdiag
  · intro p hp hle hor
    rw [in_service_of, List.any_eq_true]
    refine ⟨p, hp, ?_⟩
    rcases hor with h | h <;> subst h <;> simp [hle]

/-- `in_service_inclusive_containment` at the concrete visit `visitGood`,
dated exactly on the start bound of the single period in `periods0`. -/
theorem in_service_inclusive_containment_witness :
    process_visit parse0 noDbFail visitGood 3 periods0 1 2 =
      Except.ok (some (("2010-01-01", 0),
        writeDiagnoses noDbFail visitGood.diagnosis 1 2 3 0
          (profStr visitGood.medical_professionals) (in_service_of periods0 0))) ∧
    (in_service_of periods0 0 = true ↔
      ∃ p ∈ periods0, p.service_start_date ≤ 0 ∧ 0 ≤ p.service_end_date) ∧
    (∀ row ∈ writeDiagnoses noDbFail visitGood.diagnosis 1 2 3 0
        (profStr visitGood.medical_professionals) (in_service_of periods0 0),
      row.in_service = in_service_of periods0 0) ∧
    (∀ p ∈ periods0, p.service_start_date ≤ p.service_end_date →
      (0 : Int) = p.service_start_date ∨ (0 : Int) = p.service_end_date →
      in_service_of periods0 0 = true) :=
  in_service_inclusive_containment parse0 noDbFail visitGood 3 periods0 1 2
    "2010-01-01" 0 rfl (by decide)

/-- Counterexample to claim C7: a diagnosis whose name field is the empty
string passes the `isinstance(condition_name, str)` check, so a row with an
empty condition name is inserted rather than skipped. -/
theorem empty_name_row_inserted :
    (process_diagnosis diagEmptyName false 1 1 1 0 none true).isSome = true ∧
    Option.map ConditionRow.condition_name
      (process_diagnosis diagEmptyName false 1 1 1 0 none true) = some "" := by
  decide

/-- Claim C7 (amended): the writer skips a diagnosis — returning nil and
inserting no row — exactly when its name field is missing or not a string; a
diagnosis whose name is any string, including the empty string, is persisted
with that name; and a skipped diagnosis does not abort its siblings: the rows
written for a visit are those of the valid siblings on either side. -/
theorem diagnosis_validation_behavior (dbR : DiagnosisInput → Bool)
    (uid fid page : Nat) (d : Int) (prof : Option String) (ins : Bool) :
    (∀ diag : DiagnosisInput, diag.diagnosis_name = none →
      process_diagnosis diag (dbR diag) uid fid page d prof ins = none) ∧
    (∀ diag name, diag.diagnosis_name = some name → dbR diag = false →
      ∃ row, process_diagnosis diag (dbR diag) uid fid page d prof ins = some row ∧
        row.condition_name = name) ∧
    (∀ pre post bad, bad.diagnosis_name = none →
      writeDiagnoses dbR (pre ++ bad :: post) uid fid page d prof ins =
        writeDiagnoses dbR pre uid fid page d prof ins ++
        writeDiagnoses dbR post uid fid page d prof ins) := by
  refine ⟨?_, ?_, ?_⟩
  · intro diag h
    simp [process_diagnosis, h]
  · intro diag name h hb
    refine ⟨⟨uid, fid, page, name, d, prof, diag.medication_list,
      diag.treatments, diag.findings, diag.doctor_comments, ins⟩, ?_, rfl⟩
    simp [process_diagnosis, h, hb]
  · intro pre post bad h
    unfold writeDiagnoses
    rw [List.filterMap_append]
    congr 1
    simp [List.filterMap_cons, process_diagnosis, h]

/-- `diagnosis_validation_behavior` at concrete diagnoses: a missing name is
skipped, a sibling named diagnosis in the same visit is still written. -/
theorem diagnosis_validation_behavior_witness :
    process_diagnosis diagNoName (noDbFail diagNoName) 1 2 3 0 none true = none ∧
    (∃ row, process_diagnosis diagKnee (noDbFail diagKnee) 1 2 3 0 none true =
        some row ∧ row.condition_name = "Knee Pain") ∧
    writeDiagnoses noDbFail ([diagKnee] ++ diagNoName :: [diagKnee]) 1 2 3 0 none true =
      writeDiagnoses noDbFail [diagKnee] 1 2 3 0 none true ++
      writeDiagnoses noDbFail [diagKnee] 1 2 3 0 none true := by
  have h := diagnosis_validation_behavior noDbFail 1 2 3 0 none true
  exact ⟨h.1 diagNoName rfl, h.2.1 diagKnee "Knee Pain" rfl rfl,
    h.2.2 [diagKnee] [diagKnee] diagNoName rfl⟩

/-- Claim C10: a visit whose date string does not parse as `%Y-%m-%d` is
silently skipped — `process_visit` returns nil without raising and writes no
evidence row for any of the visit's diagnoses — and the rows produced by a
batch of visits containing it are exactly those of its sibling visits. -/
theorem invalid_date_skips_visit (parse : String → Option Int)
    (dbR : DiagnosisInput → Bool) (visit : VisitInput) (page : Nat)
    (periods : List ServicePeriodRec) (uid fid : Nat) (s : String)
    (h1 : visit.date_of_visit = some s) (h2 : parse s = none) :
    process_visit parse dbR visit page periods uid fid = Except.ok none ∧
    ∀ pre post, run_visits parse dbR (pre ++ visit :: post) page periods uid fid =
      run_visits parse dbR pre page periods uid fid ++
      run_visits parse dbR post page periods uid fid := by
  have hv : process_visit parse dbR visit page periods uid fid = Except.ok none := by
    simp [process_visit, h1, h2]
  refine ⟨hv, ?_⟩
  intro pre post
  induction pre with
  | nil => simp [run_visits, hv]
  | cons x xs ih =>
    show (match process_visit parse dbR x page periods uid fid with
      | .ok (some (_, rows)) => rows
      | _ => []) ++ run_visits parse dbR (xs ++ visit :: post) page periods uid fid = _
    rw [ih]
    show _ = ((match process_visit parse dbR x page periods uid fid with
      | .ok (some (_, rows)) => rows
      | _ => []) ++ run_visits parse dbR xs page periods uid fid) ++ _
    rw [List.append_assoc]

/-- `invalid_date_skips_visit` at the concrete visit `visitBadDate`, whose
date string 2010/01/01 does not parse, placed between two valid sibling
visits. -/
theorem invalid_date_skips_visit_witness :
    process_visit parse0 noDbFail visitBadDate 4 periods0 1 2 = Except.ok none ∧
    run_visits parse0 noDbFail ([visitGood] ++ visitBadDate :: [visitGood]) 4 periods0 1 2 =
      run_visits parse0 noDbFail [visitGood] 4 periods0 1 2 ++
      run_visits parse0 noDbFail [visitGood] 4 periods0 1 2 := by
  have h := invalid_date_skips_visit parse0 noDbFail visitBadDate 4 periods0 1 2
    "2010/01/01" rfl (by decide)
  exact ⟨h.1, h.2 [visitGood] [visitGood]⟩

/-- The fuel of `batchesOfAux` is irrelevant once it covers the list's
length. -/
theorem batchesOfAux_congr : ∀ (fuel fuel' : Nat) (l : List String),
    l.length ≤ fuel → l.length ≤ fuel' →
    batchesOfAux fuel l = batchesOfAux fuel' l := by
  intro fuel
  induction fuel with
  | zero =>
    intro fuel' l hl _
    have h0 : l = [] := List.length_eq_zero.mp (Nat.le_zero.mp hl)
    subst h0
    cases fuel' <;> rfl
  | succ n ih =>
    intro fuel' l hl hl'
    cases l with
    | nil => cases fuel' <;> rfl
    | cons x xs =>
      cases fuel' with
      | zero => simp at hl'
      | succ m =>
        show (x :: xs).take batch_size :: batchesOfAux n ((x :: xs).drop batch_size) =
          (x :: xs).take batch_size :: batchesOfAux m ((x :: xs).drop batch_size)
        congr 1
        apply ih
        · simp only [List.length_drop, List.length_cons, batch_size]
          simp only [List.length_cons] at hl
          omega
        · simp only [List.length_drop, List.length_cons, batch_size]
          simp only [List.length_cons] at hl'
          omega

/-- One unfolding step of the batch slicing. -/
theorem batchesOf_cons_eq (x : String) (xs : List String) :
    batchesOf (x :: xs) =
      (x :: xs).take batch_size :: batchesOf ((x :: xs).drop batch_size) := by
  show (x :: xs).take batch_size :: batchesOfAux xs.length ((x :: xs).drop batch_size) =
    (x :: xs).take batch_size ::
      batchesOfAux ((x :: xs).drop batch_size).length ((x :: xs).drop batch_size)
  congr 1
  apply batchesOfAux_congr
  · simp only [List.length_drop, List.length_cons, batch_size]
    omega
  · exact le_rfl

/-- The batch slices are empty exactly for an empty text list. -/
theorem batchesOf_eq_nil_iff (l : List String) : batchesOf l = [] ↔ l = [] := by
  cases l with
  | nil => simp [batchesOf, batchesOfAux]
  | cons x xs => rw [batchesOf_cons_eq]; simp

/-- Concatenating the batch slices gives back the original page texts: no
page is dropped or duplicated by batching. -/
theorem batchesOf_flatten (l : List String) : (batchesOf l).flatten = l := by
  have H : ∀ n (l : List String), l.length ≤ n → (batchesOf l).flatten = l := by
    intro n
    induction n with
    | zero =>
      intro l hl
      have h0 : l = [] := List.length_eq_zero.mp (Nat.le_zero.mp hl)
      subst h0
      rfl
    | succ n ih =>
      intro l hl
      match l with
      | [] => rfl
      | x :: xs =>
        rw [batchesOf_cons_eq, List.flatten_cons,
          ih ((x :: xs).drop batch_size)
            (by
              simp only [List.length_drop, List.length_cons, batch_size]
              simp only [List.length_cons] at hl
              omega)]
        exact List.take_append_drop _ _
  exact H l.length l le_rfl

/-- Every batch slice holds at most 25 pages. -/
theorem batchesOf_mem_length_le (l : List String) :
    ∀ b ∈ batchesOf l, b.length ≤ batch_size := by
  have H : ∀ n (l : List String), l.length ≤ n →
      ∀ b ∈ batchesOf l, b.length ≤ batch_size := by
    intro n
    induction n with
    | zero =>
      intro l hl b hb
      have h0 : l = [] := List.length_eq_zero.mp (Nat.le_zero.mp hl)
      subst h0
      simp [batchesOf, batchesOfAux] at hb
    | succ n ih =>
      intro l hl b hb
      match l with
      | [] => simp [batchesOf, batchesOfAux] at hb
      | x :: xs =>
        rw [batchesOf_cons_eq, List.mem_cons] at hb
        rcases hb with h | h
        · subst h
          exact List.length_take_le _ _
        · exact ih ((x :: xs).drop batch_size)
            (by
              simp only [List.length_drop, List.length_cons, batch_size]
              simp only [List.length_cons] at hl
              omega) b h
  exact H l.length l le_rfl

/-- Every batch slice except possibly the last holds exactly 25 pages. -/
theorem batchesOf_dropLast_length (l : List String) :
    ∀ b ∈ (batchesOf l).dropLast, b.length = batch_size := by
  have H : ∀ n (l : List String), l.length ≤ n →
      ∀ b ∈ (batchesOf l).dropLast, b.length = batch_size := by
    intro n
    induction n with
    | zero =>
      intro l hl b hb
      have h0 : l = [] := List.length_eq_zero.mp (Nat.le_zero.mp hl)
      subst h0
      simp [batchesOf, batchesOfAux] at hb
    | succ n ih =>
      intro l hl b hb
      match l with
      | [] => simp [batchesOf, batchesOfAux] at hb
      | x :: xs =>
        rw [batchesOf_cons_eq] at hb
        cases hrest : batchesOf ((x :: xs).drop batch_size) with
        | nil => rw [hrest] at hb; simp at hb
        | cons y ys =>
          rw [hrest, List.dropLast_cons_of_ne_nil (List.cons_ne_nil y ys),
            List.mem_cons] at hb
          rcases hb with h | h
          · subst h
            have hd : ¬ (x :: xs).length ≤ batch_size := by
              intro hle
              have hnil : (x :: xs).drop batch_size = [] :=
                List.drop_eq_nil_of_le hle
              rw [hnil] at hrest
              simp [batchesOf, batchesOfAux] at hrest
            rw [List.length_take]
            omega
          · rw [← hrest] at h
            exact ih ((x :: xs).drop batch_size)
              (by
                simp only [List.length_drop, List.length_cons, batch_size]
                simp only [List.length_cons] at hl
                omega) b h
  exact H l.length l le_rfl

/-- Claim C9: regardless of the order in which the concurrent per-batch and
per-page work completes (any permutation of the submitted work's results),
the classification results and the extractor's per-page results are sorted in
ascending page order before being returned, losing and duplicating nothing;
and classification is submitted in batches of 25 pages: the slices
concatenate back to the page texts, none exceeds 25 pages, and all but
possibly the last hold exactly 25. -/
theorem extractor_sorted_and_batched (texts : List String)
    (classifyBatch : Nat → List String → List PageClassificationRec)
    (gathered : List PageClassificationRec) (completed trueResults : List PageResult)
    (hg : gathered.Perm (batch_results classifyBatch texts).flatten)
    (hc : completed.Perm trueResults) :
    List.Sorted (fun a b => a.page_number ≤ b.page_number)
      (sort_by_page_number gathered) ∧
    (sort_by_page_number gathered).Perm (batch_results classifyBatch texts).flatten ∧
    List.Sorted (fun a b => a.page ≤ b.page) (sort_page_results completed) ∧
    (sort_page_results completed).Perm trueResults ∧
    (batchesOf texts).flatten = texts ∧
    (∀ b ∈ batchesOf texts, b.length ≤ batch_size) ∧
    (∀ b ∈ (batchesOf texts).dropLast, b.length = batch_size) := by
  refine ⟨?_, ?_, ?_, ?_, batchesOf_flatten texts,
    batchesOf_mem_length_le texts, batchesOf_dropLast_length texts⟩
  · exact List.sorted_insertionSort _ _
  · exact (List.perm_insertionSort _ _).trans hg
  · exact List.sorted_insertionSort _ _
  · exact (List.perm_insertionSort _ _).trans hc

/-- `extractor_sorted_and_batched` at three concrete pages whose batch
results are gathered in reversed completion order and whose per-page results
complete out of order. -/
theorem extractor_sorted_and_batched_witness :
    List.Sorted (fun a b => a.page_number ≤ b.page_number)
      (sort_by_page_number gathered3) ∧
    (sort_by_page_number gathered3).Perm (batch_results classify3 texts3).flatten ∧
    List.Sorted (fun a b => a.page ≤ b.page) (sort_page_results completed3) ∧
    (sort_page_results completed3).Perm trueResults3 ∧
    (batchesOf texts3).flatten = texts3 ∧
    (∀ b ∈ batchesOf texts3, b.length ≤ batch_size) ∧
    (∀ b ∈ (batchesOf texts3).dropLast, b.length = batch_size) :=
  extractor_sorted_and_batched texts3 classify3 gathered3 completed3 trueResults3
    (by decide) (by decide)
